import Mathlib

/-!
Verification of the issue-sync reconciliation engine against its
natural-language specification.

The definitions below are a shallow embedding of the Go sources:

- pkg/jira (convert.go second part, unnamed/part_000): the live and
  dry-run JIRA clients (ListIssues, CreateIssue, UpdateIssue,
  CreateComment, UpdateComment and the comment body composition);
- pkg/sync (unnamed/part_001, unnamed/part_003): the query builder
  (buildQuery and friends) and the reconciliation engine
  (CompareIssues, DidIssueChange, UpdateIssue);
- pkg/config (unnamed/part_003 second part): custom field resolution
  (getFieldIDs).

Go strings are modelled as Lean strings where only concatenation and
equality matter, and as byte lists (`GoStr`) where Go's byte-level
`len` and slicing matter (comment bodies).  Remote calls are modelled
by passing their terminal outcome (after the backoff wrapper) as an
explicit argument, and the requests a function issues are collected in
an explicit trace.  A Go runtime abort (an out-of-range slice or a
call to the builtin that unwinds the stack) is modelled by the
`GoResult.panicked` constructor: no value is returned to the caller.
-/

set_option autoImplicit false
set_option maxRecDepth 8000

/-- Outcome of a Go computation that can abort the process: either a
normal value, or a runtime abort (out-of-range slice, or an explicit
unrecoverable abort as in buildUserQuery).  An abort is not an error
value returned to the caller. -/
inductive GoResult (α : Type) where
  | panicked : GoResult α
  | ok : α → GoResult α
  deriving Repr, DecidableEq

/-- A Go string viewed as its byte sequence (Go `len` and slicing are
byte-based). -/
abbrev GoStr := List Nat

/-- Byte sequence of an ASCII Lean string literal (for ASCII text the
UTF-8 bytes are exactly the character codes). -/
def ascii (s : String) : GoStr := s.data.map Char.toNat

/-- Go string slicing `s[:n]`: the first `n` bytes if `n ≤ len(s)`,
otherwise a runtime abort (slice bounds out of range). -/
def goSliceTo (s : GoStr) (n : Nat) : GoResult GoStr :=
  if n ≤ s.length then GoResult.ok (s.take n) else GoResult.panicked

/-- A Go time.Time: wall-clock fields plus the zone offset in minutes.
Only the fields consumed by the layouts appearing in this repository
are modelled. -/
structure GoTime where
  year : Nat
  month : Nat
  day : Nat
  hour : Nat
  minute : Nat
  second : Nat
  offsetMinutes : Int
  deriving Repr, DecidableEq

/-- Decimal rendering zero-padded to two digits (Go appendInt with
width 2). -/
def pad2 (n : Nat) : String :=
  if n < 10 then "0" ++ toString n else toString n

/-- Decimal rendering zero-padded to four digits (Go appendInt with
width 4, used for the 2006 year chunk). -/
def pad4 (n : Nat) : String :=
  if n < 10 then "000" ++ toString n
  else if n < 100 then "00" ++ toString n
  else if n < 1000 then "0" ++ toString n
  else toString n

/-- Numeric zone offset without a colon, as Go renders the -0700
layout chunk: sign, two-digit hours, two-digit minutes. -/
def offsetNoColon (m : Int) : String :=
  (if m < 0 then "-" else "+") ++ pad2 (m.natAbs / 60) ++ pad2 (m.natAbs % 60)

/-- Numeric zone offset with a colon, as Go renders the -07:00 layout
chunk. -/
def offsetColon (m : Int) : String :=
  (if m < 0 then "-" else "+") ++ pad2 (m.natAbs / 60) ++ ":" ++ pad2 (m.natAbs % 60)

/-- Full month name for the January layout chunk (months 1 to 12, as
in Go's months table). -/
def longMonth (m : Nat) : String :=
  match m with
  | 1 => "January" | 2 => "February" | 3 => "March" | 4 => "April"
  | 5 => "May" | 6 => "June" | 7 => "July" | 8 => "August"
  | 9 => "September" | 10 => "October" | 11 => "November" | 12 => "December"
  | _ => ""

/-- Three-letter month name for the Jan layout chunk. -/
def shortMonth (m : Nat) : String := (longMonth m).take 3

/-- Go time.Time.Format restricted to the layout chunks that can occur
in this repository's layout strings.  This mirrors Go's nextStdChunk:
at each position the recognized chunks are, by leading byte,
2006 / 2 (year, day of month), 01 02 03 04 05 06 (padded month, day,
12-hour, minute, second, 2-digit year), 1 (month), 15 (padded hour),
3 4 5 (12-hour, minute, second), January / Jan, PM,
-0700 -07:00 -07 and Z0700 Z07:00 (numeric zone offsets).  Any byte
that does not start a recognized chunk — in particular a plus sign,
which Go's matcher has no case for — is copied to the output
literally. -/
def goFormat (t : GoTime) : List Char → String
  | [] => ""
  | '2' :: '0' :: '0' :: '6' :: rest => pad4 t.year ++ goFormat t rest
  | '0' :: '1' :: rest => pad2 t.month ++ goFormat t rest
  | '0' :: '2' :: rest => pad2 t.day ++ goFormat t rest
  | '0' :: '3' :: rest => pad2 (if t.hour % 12 = 0 then 12 else t.hour % 12) ++ goFormat t rest
  | '0' :: '4' :: rest => pad2 t.minute ++ goFormat t rest
  | '0' :: '5' :: rest => pad2 t.second ++ goFormat t rest
  | '0' :: '6' :: rest => pad2 (t.year % 100) ++ goFormat t rest
  | '1' :: '5' :: rest => pad2 t.hour ++ goFormat t rest
  | '1' :: rest => toString t.month ++ goFormat t rest
  | '2' :: rest => toString t.day ++ goFormat t rest
  | '3' :: rest => toString (if t.hour % 12 = 0 then 12 else t.hour % 12) ++ goFormat t rest
  | '4' :: rest => toString t.minute ++ goFormat t rest
  | '5' :: rest => toString t.second ++ goFormat t rest
  | 'J' :: 'a' :: 'n' :: 'u' :: 'a' :: 'r' :: 'y' :: rest => longMonth t.month ++ goFormat t rest
  | 'J' :: 'a' :: 'n' :: rest => shortMonth t.month ++ goFormat t rest
  | 'P' :: 'M' :: rest => (if t.hour < 12 then "AM" else "PM") ++ goFormat t rest
  | '-' :: '0' :: '7' :: '0' :: '0' :: rest => offsetNoColon t.offsetMinutes ++ goFormat t rest
  | '-' :: '0' :: '7' :: ':' :: '0' :: '0' :: rest => offsetColon t.offsetMinutes ++ goFormat t rest
  | '-' :: '0' :: '7' :: rest =>
      (if t.offsetMinutes < 0 then "-" else "+") ++ pad2 (t.offsetMinutes.natAbs / 60) ++ goFormat t rest
  | 'Z' :: '0' :: '7' :: '0' :: '0' :: rest =>
      (if t.offsetMinutes = 0 then "Z" else offsetNoColon t.offsetMinutes) ++ goFormat t rest
  | 'Z' :: '0' :: '7' :: ':' :: '0' :: '0' :: rest =>
      (if t.offsetMinutes = 0 then "Z" else offsetColon t.offsetMinutes) ++ goFormat t rest
  | c :: rest => String.singleton c ++ goFormat t rest

/-- An organisation entry of the configuration (pkg/config,
unnamed/part_004): a name and an optional list of repositories. -/
structure Organisation where
  name : String
  repos : List String
  deriving Repr, DecidableEq

/-- buildSinceQuery (unnamed/part_001): renders the watermark with the
layout string 2006-01-02T15:04:05+07:00 and prefixes the updated
lower-bound operator. -/
def buildSinceQuery (since : GoTime) : String :=
  "updated:>=" ++ goFormat since "2006-01-02T15:04:05+07:00".data ++ " "

/-- buildRepoQuery (unnamed/part_001): one repo term per listed
repository of the organisation. -/
def buildRepoQuery (org : Organisation) : String :=
  org.repos.foldl (fun q repo => q ++ "repo:" ++ org.name ++ "/" ++ repo ++ " ") ""

/-- buildOrgQuery (unnamed/part_001): a whole-organisation term when no
repositories are listed, otherwise one term per repository. -/
def buildOrgQuery (orgs : List Organisation) : String :=
  orgs.foldl
    (fun q org =>
      if org.repos.length = 0 then q ++ "org:" ++ org.name ++ " "
      else q ++ buildRepoQuery org) ""

/-- buildUserQuery (unnamed/part_001): one involves term per member of
the source organisation.  The membership lookup outcome is passed in;
on a lookup error the Go code aborts the process (it does not return
the error), which the panicked result models. -/
def buildUserQuery (members : Except String (List String)) : GoResult String :=
  match members with
  | Except.error _ => GoResult.panicked
  | Except.ok users =>
      GoResult.ok (users.foldl (fun q user => q ++ "involves:" ++ user ++ " ") "")

/-- buildQuery (unnamed/part_001): user clause, then scope clause, then
since clause.  An abort inside buildUserQuery propagates as an abort,
not as a value. -/
def buildQuery (members : Except String (List String)) (orgs : List Organisation)
    (since : GoTime) : GoResult String :=
  match buildUserQuery members with
  | GoResult.panicked => GoResult.panicked
  | GoResult.ok uq => GoResult.ok (uq ++ buildOrgQuery orgs ++ buildSinceQuery since)

/-- A value stored in the dynamically typed Unknowns map of a JIRA
issue: either an integer or some other (string) value.  Unknowns.Int
succeeds exactly on the integer case. -/
inductive UnknownVal where
  | intVal : Int → UnknownVal
  | strVal : String → UnknownVal
  deriving Repr, DecidableEq

/-- go-jira Unknowns.Int on an optional map entry: the integer if the
entry is present and integral, otherwise an error (modelled none). -/
def unknownInt : Option UnknownVal → Option Int
  | some (UnknownVal.intVal n) => some n
  | _ => none

/-- The Go idiom id, _ := Unknowns.Int(key): the integer value, or the
zero value 0 when the lookup or conversion fails and the error is
discarded. -/
def unknownIntZero (v : Option UnknownVal) : Int :=
  (unknownInt v).getD 0

/-- The fields of a GitHub issue consumed by the engine
(unnamed/part_003): stable id, display number, title, body, state,
reporter login and the ordered label names. -/
structure GitHubIssue where
  id : Int
  number : Int
  title : String
  body : String
  state : String
  reporterLogin : String
  labels : List String
  deriving Repr, DecidableEq

/-- The fields of a JIRA issue consumed by the engine: key, the
GitHub ID cross-reference custom field, summary, description, the
mirrored status / reporter / labels / last-sync custom fields
(go-jira Unknowns.String yields an error when the entry is missing or
not a string, modelled none), and the issue type name. -/
structure JiraIssue where
  key : String
  ghID : Option UnknownVal
  summary : String
  description : String
  status : Option String
  reporter : Option String
  labelsField : Option String
  lastSync : Option String
  typeName : String
  deriving Repr, DecidableEq

/-- DidIssueChange (unnamed/part_003 lines 67-103), translated
statement by statement.  Each Unknowns.String lookup yields the zero
value (the empty string) together with the error flag when the field
is missing or unparseable.  Note the labels clause: the source guards
it with err AND join-differs, unlike the OR used for status and
reporter. -/
def DidIssueChange (ghIssue : GitHubIssue) (jIssue : JiraIssue) : Bool :=
  let anyDifferent := false
  let anyDifferent := anyDifferent || (ghIssue.title != jIssue.summary)
  let anyDifferent := anyDifferent || (ghIssue.body != jIssue.description)
  let field := jIssue.status.getD ""
  let anyDifferent :=
    if jIssue.status.isNone || (ghIssue.state != field) then true else anyDifferent
  let field := jIssue.reporter.getD ""
  let anyDifferent :=
    if jIssue.reporter.isNone || (ghIssue.reporterLogin != field) then true else anyDifferent
  let labels := String.intercalate "," ghIssue.labels
  let field := jIssue.labelsField.getD ""
  let anyDifferent :=
    if jIssue.labelsField.isNone && (labels != field) then true else anyDifferent
  anyDifferent

/-- Observable outcome of processing one source issue inside the
CompareIssues loop: a successful update or create, or a logged
per-issue failure (the loop continues either way). -/
inductive SyncEvent where
  | updatedIssue : Int → String → SyncEvent
  | createdIssue : Int → SyncEvent
  | loggedUpdateError : String → SyncEvent
  | loggedCreateError : Int → SyncEvent
  deriving Repr, DecidableEq

/-- One iteration of the CompareIssues per-issue loop: scan the batch
for the first JIRA issue whose GitHub ID custom field (with discarded
conversion error, zero value 0) equals the source id; update on a
match, create otherwise; a per-issue failure is logged and the loop
moves on. -/
def compareStep (updateIssue : GitHubIssue → JiraIssue → Except String Unit)
    (createIssue : GitHubIssue → Except String Unit) (jiraIssues : List JiraIssue)
    (events : List SyncEvent) (ghIssue : GitHubIssue) : List SyncEvent :=
  match jiraIssues.find? (fun jIssue => unknownIntZero jIssue.ghID == ghIssue.id) with
  | some jIssue =>
      match updateIssue ghIssue jIssue with
      | Except.ok _ => events ++ [SyncEvent.updatedIssue ghIssue.id jIssue.key]
      | Except.error _ => events ++ [SyncEvent.loggedUpdateError jIssue.key]
  | none =>
      match createIssue ghIssue with
      | Except.ok _ => events ++ [SyncEvent.createdIssue ghIssue.number]
      | Except.error _ => events ++ [SyncEvent.loggedCreateError ghIssue.number]

/-- CompareIssues (unnamed/part_003 lines 21-63).  An empty source
list is an immediate no-op success, checked before the batch lookup.
A failing batch ListIssues lookup aborts the run with its error.
Otherwise every source issue is processed by compareStep and the
function returns success together with the per-issue outcomes. -/
def CompareIssues (ghIssues : List GitHubIssue)
    (listIssuesResult : Except String (List JiraIssue))
    (updateIssue : GitHubIssue → JiraIssue → Except String Unit)
    (createIssue : GitHubIssue → Except String Unit) : Except String (List SyncEvent) :=
  if ghIssues.length = 0 then Except.ok []
  else
    match listIssuesResult with
    | Except.error e => Except.error e
    | Except.ok jiraIssues =>
        Except.ok (ghIssues.foldl (compareStep updateIssue createIssue jiraIssues) [])

/-- A call the sync-engine UpdateIssue function makes against its
collaborators: the field-altering client UpdateIssue, the read-only
client GetIssue, and the comment reconciliation pass. -/
inductive ClientCall where
  | updateIssueCall : String → ClientCall
  | getIssueCall : String → ClientCall
  | compareCommentsCall : String → ClientCall
  deriving Repr, DecidableEq

/-- True exactly for the field-altering client call. -/
def isMutatingCall : ClientCall → Bool
  | ClientCall.updateIssueCall _ => true
  | _ => false

/-- True exactly for the comment reconciliation pass. -/
def isCommentsCall : ClientCall → Bool
  | ClientCall.compareCommentsCall _ => true
  | _ => false

/-- The replacement field set UpdateIssue builds when the issues
differ (unnamed/part_003 lines 116-138): summary, description and the
mirrored status / reporter / label-join / last-sync fields from the
GitHub issue, the issue type preserved from the JIRA issue, keyed by
the existing key.  time.Now is passed in as the rendered now
argument. -/
def buildUpdateIssue (ghIssue : GitHubIssue) (jIssue : JiraIssue) (now : String) : JiraIssue :=
  { key := jIssue.key
    ghID := none
    summary := ghIssue.title
    description := ghIssue.body
    status := some ghIssue.state
    reporter := some ghIssue.reporterLogin
    labelsField := some (String.intercalate "," ghIssue.labels)
    lastSync := some now
    typeName := jIssue.typeName }

/-- The unconditional tail of the sync-engine UpdateIssue: re-fetch
the JIRA issue by the original key, then reconcile comments on the
fetched issue; either failure aborts this issue's processing. -/
def refetchAndComments (key : String) (getIssue : String → Except String JiraIssue)
    (compareComments : String → Except String Unit) :
    Except String Unit × List ClientCall :=
  match getIssue key with
  | Except.error e => (Except.error e, [ClientCall.getIssueCall key])
  | Except.ok issue =>
      match compareComments issue.key with
      | Except.error e =>
          (Except.error e, [ClientCall.getIssueCall key, ClientCall.compareCommentsCall issue.key])
      | Except.ok _ =>
          (Except.ok (), [ClientCall.getIssueCall key, ClientCall.compareCommentsCall issue.key])

/-- UpdateIssue of the sync engine (unnamed/part_003 lines 108-162):
submit a replacement field set only when DidIssueChange reports a
difference; whether or not that happened, re-fetch by key and run
comment reconciliation.  The result is paired with the trace of
collaborator calls actually made. -/
def UpdateIssueFlow (ghIssue : GitHubIssue) (jIssue : JiraIssue) (now : String)
    (updateIssue : JiraIssue → Except String JiraIssue)
    (getIssue : String → Except String JiraIssue)
    (compareComments : String → Except String Unit) :
    Except String Unit × List ClientCall :=
  if DidIssueChange ghIssue jIssue then
    match updateIssue (buildUpdateIssue ghIssue jIssue now) with
    | Except.error e => (Except.error e, [ClientCall.updateIssueCall jIssue.key])
    | Except.ok _ =>
        let tail := refetchAndComments jIssue.key getIssue compareComments
        (tail.1, ClientCall.updateIssueCall jIssue.key :: tail.2)
  else refetchAndComments jIssue.key getIssue compareComments

/-- A request sent to the JIRA REST API, tagged by endpoint. -/
inductive JiraRequest where
  | searchRequest : String → JiraRequest
  | getRequest : String → JiraRequest
  | createRequest : JiraRequest
  | updateRequest : String → JiraRequest
  | addCommentRequest : String → JiraRequest
  | putCommentRequest : String → String → JiraRequest
  deriving Repr, DecidableEq

/-- True exactly for the requests that mutate server data (issue
create and update, comment add and comment put). -/
def isMutatingRequest : JiraRequest → Bool
  | JiraRequest.createRequest => true
  | JiraRequest.updateRequest _ => true
  | JiraRequest.addCommentRequest _ => true
  | JiraRequest.putCommentRequest _ _ => true
  | _ => false

/-- realJIRAClient.CreateIssue (convert.go lines 258-276): one create
request through the backoff wrapper; its terminal outcome (the
created issue with generated key and id, or a terminal error) is
passed in and returned as is. -/
def realCreateIssue (_issue : JiraIssue) (remote : Except String JiraIssue) :
    Except String JiraIssue × List JiraRequest :=
  (remote, [JiraRequest.createRequest])

/-- realJIRAClient.UpdateIssue (convert.go lines 281-298): one update
request, keyed by the issue's key, through the backoff wrapper. -/
def realUpdateIssue (issue : JiraIssue) (remote : Except String JiraIssue) :
    Except String JiraIssue × List JiraRequest :=
  (remote, [JiraRequest.updateRequest issue.key])

/-- dryrunJIRAClient.CreateIssue (unnamed/part_000 lines 111-128):
logs the would-be fields and returns the provided issue object as is,
making no request at all. -/
def dryrunCreateIssue (issue : JiraIssue) : Except String JiraIssue × List JiraRequest :=
  (Except.ok issue, [])

/-- dryrunJIRAClient.UpdateIssue (unnamed/part_000 lines 133-153):
logs the would-be fields and returns the provided issue object as is,
making no request at all. -/
def dryrunUpdateIssue (issue : JiraIssue) : Except String JiraIssue × List JiraRequest :=
  (Except.ok issue, [])

/-- maxJQLIssueLength (convert.go line 60): the number of GitHub ids
above which the JQL filter would overflow the request URI and the
client filters locally instead. -/
def maxJQLIssueLength : Nat := 100

/-- True when the cross-reference custom field of the JIRA issue holds
one of the given GitHub ids. -/
def ghIDMatches (ids : List Int) (jIssue : JiraIssue) : Bool :=
  match jIssue.ghID with
  | some (UnknownVal.intVal v) => ids.contains v
  | _ => false

/-- Modelled JQL server semantics for the query
project=P AND cf[ghID] in (ids): of the issues of the configured
project, the server returns those whose cross-reference custom field
equals one of the listed ids, in order. -/
def jqlFilterSearch (projectIssues : List JiraIssue) (ids : List Int) : List JiraIssue :=
  projectIssues.filter (ghIDMatches ids)

/-- One iteration of the client-side filtering loop of ListIssues
(convert.go lines 180-192): skip an issue with no cross-reference
value, skip an issue whose value does not convert to an integer, and
append the issue when the integer is one of the given ids. -/
def clientSideStep (ids : List Int) (filteredIssues : List JiraIssue) (v : JiraIssue) :
    List JiraIssue :=
  match v.ghID with
  | none => filteredIssues
  | some val =>
      match unknownInt (some val) with
      | none => filteredIssues
      | some id => if ids.contains id then filteredIssues ++ [v] else filteredIssues

/-- The client-side filtering loop of ListIssues (convert.go lines
178-193). -/
def clientSideFilter (ids : List Int) (jiraIssues : List JiraIssue) : List JiraIssue :=
  jiraIssues.foldl (clientSideStep ids) []

/-- realJIRAClient.ListIssues (convert.go lines 151-196): below the
maxJQLIssueLength threshold the id filter is part of the JQL query and
the server response is used as is; at or above it the whole project is
fetched and filtered client-side.  The configured project's issues
stand for the server state; the flag records which path ran
(true = filter pushed into the query). -/
def ListIssues (ids : List Int) (projectIssues : List JiraIssue) :
    Bool × List JiraIssue :=
  if ids.length < maxJQLIssueLength then
    (true, jqlFilterSearch projectIssues ids)
  else
    (false, clientSideFilter ids projectIssues)

/-- Field metadata returned by the JIRA field-listing endpoint
(unnamed/part_003 lines 227-243): the display name and the custom
field's numeric identifier. -/
structure jiraField where
  name : String
  customID : Nat
  deriving Repr, DecidableEq

/-- The custom field ids issue-sync cares about (unnamed/part_003
lines 343-351); the zero value has every id empty. -/
structure fields where
  githubID : String
  githubNumber : String
  githubLabels : String
  githubReporter : String
  githubStatus : String
  lastUpdate : String
  githubURI : String
  deriving Repr, DecidableEq

/-- The zero value of the fields struct. -/
def emptyFields : fields :=
  { githubID := "", githubNumber := "", githubLabels := "", githubReporter := ""
    githubStatus := "", lastUpdate := "", githubURI := "" }

/-- getFieldIDs (unnamed/part_003 lines 247-300): scan the field
metadata, matching each semantic field by exact display name and
recording its custom id rendered in decimal; then check the recorded
ids in order and fail with the corresponding named error on the first
empty one.  The seventh check repeats lastUpdate, exactly as in the
source (line 293), although its message names the GitHub URI field. -/
def getFieldIDs (jFields : List jiraField) : Except String fields :=
  let fieldIDs := jFields.foldl
    (fun acc field =>
      match field.name with
      | "GitHub ID" => { acc with githubID := toString field.customID }
      | "GitHub Number" => { acc with githubNumber := toString field.customID }
      | "GitHub Labels" => { acc with githubLabels := toString field.customID }
      | "GitHub Status" => { acc with githubStatus := toString field.customID }
      | "GitHub Reporter" => { acc with githubReporter := toString field.customID }
      | "Last Issue-Sync Update" => { acc with lastUpdate := toString field.customID }
      | "GitHub URI" => { acc with githubURI := toString field.customID }
      | _ => acc)
    emptyFields
  if fieldIDs.githubID = "" then
    Except.error "could not find ID of 'GitHub ID' custom field; check that it is named correctly"
  else if fieldIDs.githubNumber = "" then
    Except.error "could not find ID of 'GitHub Number' custom field; check that it is named correctly"
  else if fieldIDs.githubLabels = "" then
    Except.error "could not find ID of 'Github Labels' custom field; check that it is named correctly"
  else if fieldIDs.githubStatus = "" then
    Except.error "could not find ID of 'Github Status' custom field; check that it is named correctly"
  else if fieldIDs.githubReporter = "" then
    Except.error "could not find ID of 'Github Reporter' custom field; check that it is named correctly"
  else if fieldIDs.lastUpdate = "" then
    Except.error "could not find ID of 'Last Issue-Sync Update' custom field; check that it is named correctly"
  else if fieldIDs.lastUpdate = "" then
    Except.error "could not find ID of 'GitHub URI' custom field; check that it is named correctly"
  else Except.ok fieldIDs

/-- maxBodyLength (convert.go line 302): the 1 shifted left 15 bound
on a submitted JIRA comment body. -/
def maxBodyLength : Nat := 2 ^ 15

/-- commentDateFormat (convert.go line 56): the layout used in the
attribution headers of JIRA comments. -/
def commentDateFormat : List Char := "15:04 PM, January 2 2006".data

/-- The GitHub user record resolved through GetUser before composing a
comment body: login, profile URL and optional display name (empty when
unset).  The fields are byte strings because the composed body is
measured and sliced in bytes. -/
structure GitHubUser where
  login : GoStr
  htmlURL : GoStr
  name : GoStr
  deriving Repr, DecidableEq

/-- The GitHub comment fields consumed by CreateComment and
UpdateComment: id, permalink, creation time and body. -/
structure GitHubComment where
  commentID : Int
  htmlURL : GoStr
  createdAt : GoTime
  body : GoStr
  deriving Repr, DecidableEq

/-- The comment body composed by the live client (convert.go lines
314-324 and 360-370, both identical): attribution header with comment
id, link, author login and URL, the author display name when present,
and the creation timestamp, followed by the original comment body. -/
def composeCommentBody (comment : GitHubComment) (user : GitHubUser) : GoStr :=
  let body := ascii "Comment [(ID " ++ ascii (toString comment.commentID) ++ ascii ")|"
    ++ comment.htmlURL ++ ascii "]"
  let body := body ++ ascii " from GitHub user [" ++ user.login ++ ascii "|"
    ++ user.htmlURL ++ ascii "]"
  let body := if user.name.isEmpty then body
    else body ++ ascii " (" ++ user.name ++ ascii ")"
  body ++ ascii " at " ++ ascii (goFormat comment.createdAt commentDateFormat)
    ++ ascii ":\n\n" ++ comment.body

/-- The truncation step of realJIRAClient.CreateComment (convert.go
lines 326-328): when the composed body has at least maxBodyLength
bytes it is sliced to the first maxBodyLength bytes, otherwise left
alone.  The slice bound never exceeds the length here, so the result
is always a value. -/
def createCommentBody (comment : GitHubComment) (user : GitHubUser) : GoResult GoStr :=
  let body := composeCommentBody comment user
  if maxBodyLength ≤ body.length then goSliceTo body maxBodyLength
  else GoResult.ok body

/-- The truncation step of realJIRAClient.UpdateComment (convert.go
lines 372-374): the source slices only when the composed body is
SHORTER than maxBodyLength, in which case the slice upper bound
maxBodyLength exceeds the body length and the slice is out of range;
a body of at least maxBodyLength bytes is left alone. -/
def updateCommentBody (comment : GitHubComment) (user : GitHubUser) : GoResult GoStr :=
  let body := composeCommentBody comment user
  if body.length < maxBodyLength then goSliceTo body maxBodyLength
  else GoResult.ok body

/-- realJIRAClient.CreateComment (convert.go lines 306-347): resolve
the author, compose and truncate the body, then submit one comment-add
request for the issue through the backoff wrapper.  A failing author
lookup returns before any request. -/
def realCreateComment (issueID : String) (comment : GitHubComment)
    (getUser : Except String GitHubUser) (remote : Except String Unit) :
    GoResult (Except String GoStr × List JiraRequest) :=
  match getUser with
  | Except.error e => GoResult.ok (Except.error e, [])
  | Except.ok user =>
      match createCommentBody comment user with
      | GoResult.panicked => GoResult.panicked
      | GoResult.ok body =>
          match remote with
          | Except.error e => GoResult.ok (Except.error e, [JiraRequest.addCommentRequest issueID])
          | Except.ok _ => GoResult.ok (Except.ok body, [JiraRequest.addCommentRequest issueID])

/-- realJIRAClient.UpdateComment (convert.go lines 352-404): resolve
the author, compose the body and run the (inverted) truncation step,
then submit one raw PUT to the comment path through the backoff
wrapper.  When the truncation step aborts, no request is made and
nothing is returned. -/
def realUpdateComment (issueKey : String) (commentID : String) (comment : GitHubComment)
    (getUser : Except String GitHubUser) (remote : Except String Unit) :
    GoResult (Except String GoStr × List JiraRequest) :=
  match getUser with
  | Except.error e => GoResult.ok (Except.error e, [])
  | Except.ok user =>
      match updateCommentBody comment user with
      | GoResult.panicked => GoResult.panicked
      | GoResult.ok body =>
          match remote with
          | Except.error e =>
              GoResult.ok (Except.error e, [JiraRequest.putCommentRequest issueKey commentID])
          | Except.ok _ =>
              GoResult.ok (Except.ok body, [JiraRequest.putCommentRequest issueKey commentID])

/-- True when a Go (value, err) pair carries a nil error. -/
def exceptIsOk {ε α : Type} : Except ε α → Bool
  | Except.ok _ => true
  | Except.error _ => false

/-!
Theorems.  Each claim of the specification is settled below; the
concrete records named after a claim exist only to evaluate the
embedded code on explicit inputs.
-/

/-- The composed comment body is at least as long as the original
GitHub comment body it ends with. -/
theorem composeCommentBody_length_ge (comment : GitHubComment) (user : GitHubUser) :
    comment.body.length ≤ (composeCommentBody comment user).length := by
  unfold composeCommentBody
  by_cases h : user.name.isEmpty <;> simp [h, List.length_append] <;> omega

/-- A GitHub comment whose body alone is 40000 bytes of the letter a,
so the composed body exceeds maxBodyLength. -/
def overlongComment : GitHubComment :=
  { commentID := 12
    htmlURL := ascii "https://github.com/acme/widget/issues/5#issuecomment-12"
    createdAt := { year := 2020, month := 1, day := 2, hour := 13, minute := 5,
                   second := 0, offsetMinutes := 0 }
    body := List.replicate 40000 97 }

/-- The resolved author of overlongComment. -/
def overlongCommentUser : GitHubUser :=
  { login := ascii "alice", htmlURL := ascii "https://github.com/alice", name := ascii "Alice A" }

/-- C1: the claim states that both CreateComment and UpdateComment cut
a composed body longer than maxBodyLength to exactly that length and
leave shorter bodies untouched.  The live UpdateComment has the
comparison inverted: on a composed body longer than maxBodyLength it
performs no truncation at all and submits the overlong body, while
CreateComment on the same input truncates correctly.  This theorem
evaluates both truncation steps on such an input. -/
theorem updateComment_overlong_body_not_truncated :
    maxBodyLength < (composeCommentBody overlongComment overlongCommentUser).length ∧
    updateCommentBody overlongComment overlongCommentUser =
      GoResult.ok (composeCommentBody overlongComment overlongCommentUser) ∧
    createCommentBody overlongComment overlongCommentUser =
      GoResult.ok ((composeCommentBody overlongComment overlongCommentUser).take maxBodyLength) := by
  have hbody : overlongComment.body.length = 40000 := by
    have h : overlongComment.body = List.replicate 40000 97 := rfl
    rw [h, List.length_replicate]
  have hge := composeCommentBody_length_ge overlongComment overlongCommentUser
  have hlong : maxBodyLength < (composeCommentBody overlongComment overlongCommentUser).length := by
    rw [hbody] at hge
    unfold maxBodyLength
    omega
  refine ⟨hlong, ?_, ?_⟩
  · unfold updateCommentBody
    rw [if_neg (by omega)]
  · unfold createCommentBody goSliceTo
    rw [if_pos (by omega), if_pos (by omega)]

/-- A GitHub comment with an ordinary short body. -/
def shortComment : GitHubComment :=
  { commentID := 3
    htmlURL := ascii "https://github.com/acme/widget/issues/5#issuecomment-3"
    createdAt := { year := 2020, month := 1, day := 2, hour := 13, minute := 5,
                   second := 0, offsetMinutes := 0 }
    body := ascii "hello" }

/-- The resolved author of shortComment, with no display name set. -/
def shortCommentUser : GitHubUser :=
  { login := ascii "bob", htmlURL := ascii "https://github.com/bob", name := [] }

/-- C10: the claim states that for a composed body shorter than
maxBodyLength the truncation step of the live UpdateComment stays in
bounds and the operation proceeds to submit.  In the source the step
runs exactly when the body is shorter than maxBodyLength and slices
with upper bound maxBodyLength, which is out of range for every such
body, so the operation aborts and never submits.  This theorem
evaluates the embedded UpdateComment on an ordinary short comment. -/
theorem updateComment_short_body_out_of_range :
    (composeCommentBody shortComment shortCommentUser).length < maxBodyLength ∧
    updateCommentBody shortComment shortCommentUser = GoResult.panicked ∧
    realUpdateComment "PROJ-5" "10000" shortComment (Except.ok shortCommentUser)
      (Except.ok ()) = GoResult.panicked := by
  refine ⟨by decide, by decide, by rfl⟩

/-- A GitHub issue differing from its mirror only in the label set. -/
def labelOnlyGH : GitHubIssue :=
  { id := 1, number := 1, title := "a title", body := "a body", state := "open"
    reporterLogin := "alice", labels := ["bug"] }

/-- A JIRA mirror of labelOnlyGH whose parseable labels field differs
from the source label join while every other compared field agrees. -/
def labelOnlyJIRA : JiraIssue :=
  { key := "PROJ-1", ghID := some (UnknownVal.intVal 1), summary := "a title"
    description := "a body", status := some "open", reporter := some "alice"
    labelsField := some "enhancement", lastSync := none, typeName := "Task" }

/-- C2 counterexample: on a pair whose only difference is the label
set (the mirrored labels field being present and parseable),
DidIssueChange returns false, refuting the claim that a label-only
difference makes it return true. -/
theorem didIssueChange_label_only_counterexample :
    DidIssueChange labelOnlyGH labelOnlyJIRA = false ∧
    String.intercalate "," labelOnlyGH.labels = "bug" ∧
    labelOnlyJIRA.labelsField = some "enhancement" ∧
    labelOnlyGH.title = labelOnlyJIRA.summary ∧
    labelOnlyGH.body = labelOnlyJIRA.description ∧
    labelOnlyJIRA.status = some labelOnlyGH.state ∧
    labelOnlyJIRA.reporter = some labelOnlyGH.reporterLogin := by
  refine ⟨by decide, by decide, by decide, by decide, by decide, by decide, by decide⟩

/-- C2 amended: DidIssueChange returns true exactly when the title,
body, status or reporter comparison differs (a missing or unparseable
mirrored status or reporter field counting as a difference), or the
mirrored labels field is missing or unparseable AND the label join
differs from the empty string; a label difference with a parseable
mirrored labels field is NOT reported. -/
theorem didIssueChange_iff (ghIssue : GitHubIssue) (jIssue : JiraIssue) :
    DidIssueChange ghIssue jIssue = true ↔
      ghIssue.title ≠ jIssue.summary ∨ ghIssue.body ≠ jIssue.description ∨
      jIssue.status = none ∨ ghIssue.state ≠ jIssue.status.getD "" ∨
      jIssue.reporter = none ∨ ghIssue.reporterLogin ≠ jIssue.reporter.getD "" ∨
      (jIssue.labelsField = none ∧ String.intercalate "," ghIssue.labels ≠ "") := by
  unfold DidIssueChange
  cases hs : jIssue.status <;> cases hr : jIssue.reporter <;> cases hl : jIssue.labelsField <;>
    simp [hs, hr, hl, bne_iff_ne] <;> tauto

/-- Field metadata in which every semantic field except GitHub URI is
present. -/
def fieldMetadataSansURI : List jiraField :=
  [{ name := "GitHub ID", customID := 10 }, { name := "GitHub Number", customID := 11 },
   { name := "GitHub Labels", customID := 12 }, { name := "GitHub Status", customID := 13 },
   { name := "GitHub Reporter", customID := 14 },
   { name := "Last Issue-Sync Update", customID := 15 }]

/-- C3: the claim states that a metadata list lacking the field of any
of the seven semantic keys makes field resolution fail with an error
naming that key, before any mutation.  For the GitHub URI key the
source re-tests the Last Issue-Sync Update id instead (the check
guarding the GitHub URI error message reads lastUpdate), so metadata
lacking only the GitHub URI field resolves successfully with an empty
URI field id and the run proceeds.  This theorem evaluates the
embedded getFieldIDs on such metadata. -/
theorem getFieldIDs_accepts_missing_uri_field :
    getFieldIDs fieldMetadataSansURI =
      Except.ok { githubID := "10", githubNumber := "11", githubLabels := "12",
                  githubReporter := "14", githubStatus := "13", lastUpdate := "15",
                  githubURI := "" } := by
  rfl

/-- The organisations of the query-construction scenario of the
specification. -/
def queryOrgs : List Organisation :=
  [{ name := "acme", repos := [] }, { name := "acme2", repos := ["x", "y"] }]

/-- The watermark of the query-construction scenario, the parse of
2020-01-01T00:00:00+0000. -/
def querySince : GoTime :=
  { year := 2020, month := 1, day := 1, hour := 0, minute := 0, second := 0,
    offsetMinutes := 0 }

/-- The query buildQuery composes in that scenario. -/
def composedQuery : String :=
  "involves:alice involves:bob org:acme repo:acme2/x repo:acme2/y " ++
    "updated:>=2020-01-01T00:00:00+07:00 "

/-- C4: the claim states the composed query contains the terms
involves:alice, involves:bob, org:acme, repo:acme2/x, repo:acme2/y and
updated:>=2020-01-01T00:00:00+00:00.  The first five terms are
present, but the plus sign in the layout string
2006-01-02T15:04:05+07:00 does not start a recognized layout chunk
(Go only treats -07:00 and Z07:00 forms as offset chunks), so +07:00
is copied literally and the since term of the UTC watermark reads
updated:>=2020-01-01T00:00:00+07:00; the claimed +00:00 term is
absent. -/
theorem buildQuery_since_offset_is_literal :
    buildQuery (Except.ok ["alice", "bob"]) queryOrgs querySince = GoResult.ok composedQuery ∧
    "involves:alice".data <:+: composedQuery.data ∧
    "involves:bob".data <:+: composedQuery.data ∧
    "org:acme".data <:+: composedQuery.data ∧
    "repo:acme2/x".data <:+: composedQuery.data ∧
    "repo:acme2/y".data <:+: composedQuery.data ∧
    "updated:>=2020-01-01T00:00:00+07:00".data <:+: composedQuery.data ∧
    ¬ ("updated:>=2020-01-01T00:00:00+00:00".data <:+: composedQuery.data) := by
  refine ⟨by decide, by decide, by decide, by decide, by decide, by decide, by decide, by decide⟩

/-- Each iteration of the CompareIssues loop records exactly one
outcome for the issue it processes, whatever that outcome is. -/
theorem compareStep_length (updateIssue : GitHubIssue → JiraIssue → Except String Unit)
    (createIssue : GitHubIssue → Except String Unit) (jiraIssues : List JiraIssue)
    (events : List SyncEvent) (ghIssue : GitHubIssue) :
    (compareStep updateIssue createIssue jiraIssues events ghIssue).length =
      events.length + 1 := by
  unfold compareStep
  cases jiraIssues.find? (fun jIssue => unknownIntZero jIssue.ghID == ghIssue.id) with
  | some jIssue => cases h : updateIssue ghIssue jIssue <;> simp [h]
  | none => cases h : createIssue ghIssue <;> simp [h]

/-- The CompareIssues loop, run over any source issues starting from
any accumulated outcomes, records exactly one outcome per issue. -/
theorem compareStep_foldl_length (updateIssue : GitHubIssue → JiraIssue → Except String Unit)
    (createIssue : GitHubIssue → Except String Unit) (jiraIssues : List JiraIssue) :
    ∀ (ghIssues : List GitHubIssue) (events : List SyncEvent),
      (ghIssues.foldl (compareStep updateIssue createIssue jiraIssues) events).length =
        events.length + ghIssues.length := by
  intro ghIssues
  induction ghIssues with
  | nil => intro events; simp
  | cons ghIssue rest ih =>
      intro events
      rw [List.foldl_cons, ih, compareStep_length]
      simp
      omega

/-- C5: for a non-empty source list, per-issue Create and Update
failures are logged and the batch continues: whatever the per-issue
outcomes, CompareIssues returns success with exactly one recorded
outcome per source issue; only a failure of the initial batch
ListIssues lookup aborts the run with that error. -/
theorem compareIssues_partial_failure_tolerance (ghIssue : GitHubIssue)
    (rest : List GitHubIssue) (jiraIssues : List JiraIssue)
    (updateIssue : GitHubIssue → JiraIssue → Except String Unit)
    (createIssue : GitHubIssue → Except String Unit) (e : String) :
    (∃ events, CompareIssues (ghIssue :: rest) (Except.ok jiraIssues) updateIssue createIssue =
        Except.ok events ∧ events.length = (ghIssue :: rest).length) ∧
    CompareIssues (ghIssue :: rest) (Except.error e) updateIssue createIssue =
      Except.error e := by
  constructor
  · refine ⟨(ghIssue :: rest).foldl (compareStep updateIssue createIssue jiraIssues) [], ?_, ?_⟩
    · simp [CompareIssues]
    · rw [compareStep_foldl_length]
      simp
  · simp [CompareIssues]

/-- C6: for every issue, the preview client's CreateIssue and
UpdateIssue issue no request at all and return the input issue object
unchanged (in particular with no generated key or id), while the live
client's CreateIssue and UpdateIssue each issue exactly one mutating
request. -/
theorem preview_no_mutation_live_one_mutation :
    (∀ issue : JiraIssue,
        dryrunCreateIssue issue = (Except.ok issue, []) ∧
        dryrunUpdateIssue issue = (Except.ok issue, [])) ∧
    (∀ (issue : JiraIssue) (remote : Except String JiraIssue),
        (realCreateIssue issue remote).2.countP (fun r => isMutatingRequest r) = 1 ∧
        (realUpdateIssue issue remote).2.countP (fun r => isMutatingRequest r) = 1) := by
  refine ⟨fun issue => ⟨rfl, rfl⟩, fun issue remote => ⟨?_, ?_⟩⟩ <;>
    simp [realCreateIssue, realUpdateIssue, isMutatingRequest]

/-- C7: when DidIssueChange reports no difference, the engine's
UpdateIssue makes no field-altering call, yet it still re-fetches the
target issue by key and, when that fetch succeeds, runs comment
reconciliation. -/
theorem updateIssueFlow_no_change_no_mutation (ghIssue : GitHubIssue) (jIssue : JiraIssue)
    (now : String) (updateIssue : JiraIssue → Except String JiraIssue)
    (getIssue : String → Except String JiraIssue)
    (compareComments : String → Except String Unit)
    (h : DidIssueChange ghIssue jIssue = false) :
    (UpdateIssueFlow ghIssue jIssue now updateIssue getIssue compareComments).2.all
        (fun call => !(isMutatingCall call)) = true ∧
    (UpdateIssueFlow ghIssue jIssue now updateIssue getIssue compareComments).2.contains
        (ClientCall.getIssueCall jIssue.key) = true ∧
    (exceptIsOk (getIssue jIssue.key) = true →
      (UpdateIssueFlow ghIssue jIssue now updateIssue getIssue compareComments).2.any
        isCommentsCall = true) := by
  unfold UpdateIssueFlow
  rw [h]
  simp only [Bool.false_eq_true, if_false]
  unfold refetchAndComments
  cases hg : getIssue jIssue.key with
  | error e => simp [isMutatingCall, exceptIsOk]
  | ok issue =>
      cases hc : compareComments issue.key <;>
        simp [hc, isMutatingCall, isCommentsCall, exceptIsOk]

/-- A GitHub issue equal to its mirror in every compared field. -/
def unchangedGH : GitHubIssue :=
  { id := 7, number := 7, title := "same title", body := "same body", state := "open"
    reporterLogin := "alice", labels := ["bug"] }

/-- The up-to-date JIRA mirror of unchangedGH. -/
def unchangedJIRA : JiraIssue :=
  { key := "PROJ-7", ghID := some (UnknownVal.intVal 7), summary := "same title"
    description := "same body", status := some "open", reporter := some "alice"
    labelsField := some "bug", lastSync := none, typeName := "Task" }

/-- C7 witness: the theorem instantiated on an unchanged pair with
collaborators that succeed. -/
theorem updateIssueFlow_no_change_no_mutation_witness :
    (UpdateIssueFlow unchangedGH unchangedJIRA "2020-01-02T13:05:00+0000"
        (fun issue => Except.ok issue) (fun _ => Except.ok unchangedJIRA)
        (fun _ => Except.ok ())).2.all (fun call => !(isMutatingCall call)) = true ∧
    (UpdateIssueFlow unchangedGH unchangedJIRA "2020-01-02T13:05:00+0000"
        (fun issue => Except.ok issue) (fun _ => Except.ok unchangedJIRA)
        (fun _ => Except.ok ())).2.contains
        (ClientCall.getIssueCall unchangedJIRA.key) = true ∧
    (exceptIsOk ((fun (_ : String) => Except.ok (ε := String) unchangedJIRA)
        unchangedJIRA.key) = true →
      (UpdateIssueFlow unchangedGH unchangedJIRA "2020-01-02T13:05:00+0000"
          (fun issue => Except.ok issue) (fun _ => Except.ok unchangedJIRA)
          (fun _ => Except.ok ())).2.any isCommentsCall = true) :=
  updateIssueFlow_no_change_no_mutation unchangedGH unchangedJIRA "2020-01-02T13:05:00+0000"
    (fun issue => Except.ok issue) (fun _ => Except.ok unchangedJIRA)
    (fun _ => Except.ok ()) (by decide)

/-- Each iteration of the client-side filtering loop appends the issue
exactly when its cross-reference custom field holds one of the given
ids. -/
theorem clientSideStep_eq (ids : List Int) (filteredIssues : List JiraIssue) (v : JiraIssue) :
    clientSideStep ids filteredIssues v =
      filteredIssues ++ if ghIDMatches ids v then [v] else [] := by
  unfold clientSideStep ghIDMatches unknownInt
  cases hv : v.ghID with
  | none => simp
  | some val =>
      cases val with
      | intVal n => by_cases hn : n ∈ ids <;> simp [hn]
      | strVal s => simp

/-- The client-side filtering loop computes exactly the filter by
cross-reference membership. -/
theorem clientSideFilter_eq_filter (ids : List Int) (jiraIssues : List JiraIssue) :
    clientSideFilter ids jiraIssues = jiraIssues.filter (ghIDMatches ids) := by
  unfold clientSideFilter
  suffices h : ∀ acc, jiraIssues.foldl (clientSideStep ids) acc =
      acc ++ jiraIssues.filter (ghIDMatches ids) by
    simpa using h []
  induction jiraIssues with
  | nil => intro acc; simp
  | cons v vs ih =>
      intro acc
      rw [List.foldl_cons, clientSideStep_eq, ih, List.filter_cons]
      by_cases hv : ghIDMatches ids v <;> simp [hv]

/-- C8: ListIssues pushes the cross-reference filter into the search
query exactly when the id set is below the maxJQLIssueLength
threshold, fetches and filters client-side otherwise, and in either
case returns exactly the target issues whose cross-reference value is
in the id set. -/
theorem listIssues_filters_by_crossref (ids : List Int) (projectIssues : List JiraIssue) :
    ListIssues ids projectIssues =
      (decide (ids.length < maxJQLIssueLength), projectIssues.filter (ghIDMatches ids)) := by
  unfold ListIssues
  by_cases h : ids.length < maxJQLIssueLength
  · simp [h, jqlFilterSearch]
  · simp [h, clientSideFilter_eq_filter]

/-- C9: the claim states that a failing membership lookup makes
buildQuery propagate the lookup's error to its caller without
terminating the process.  In the source buildUserQuery aborts the
process on a lookup error (marked by a bubble-up TODO), and buildQuery
returns a plain string with no error channel at all; the abort
propagates as an abort through buildQuery, while every successful
lookup composes a query. -/
theorem buildUserQuery_aborts_on_lookup_error :
    buildUserQuery (Except.error "membership lookup failed") = GoResult.panicked ∧
    buildQuery (Except.error "membership lookup failed") queryOrgs querySince =
      GoResult.panicked ∧
    (∀ users : List String, ∃ q, buildQuery (Except.ok users) queryOrgs querySince =
      GoResult.ok q) :=
  ⟨rfl, rfl, fun _ => ⟨_, rfl⟩⟩
